import Mathlib

/-!
Shallow embedding of the grove_analog_aqs driver (src/src/grove_analog_aqs.c,
src/include/grove_analog_aqs.h).

The platform abstraction layer (ESP-IDF GPIO, ADC oneshot and ADC calibration
APIs) is modelled as a `HalEnv` record giving each collaborator call's return
code and output value for the duration of one driver call.  Pointer arguments
become `Option` values (`none` models `NULL`); the global `sensor` struct is
threaded explicitly as a `grove_aqs_dev_t` value.  Each stateful routine also
returns a list of `HalEvent` values recording the resource-relevant
collaborator calls it performed (successful ADC-unit create/delete, GPIO
calls), which is how handle-balance properties are stated.

C `int` arithmetic is modelled on `Int`; the C division `/` truncates toward
zero, which is `Int.tdiv`.
-/

/-- ESP_OK from esp_err.h. -/
def ESP_OK : Int := 0

/-- ESP_FAIL from esp_err.h, used as a generic collaborator failure code. -/
def ESP_FAIL : Int := -1

/-- ESP_ERR_INVALID_ARG (0x102) from esp_err.h. -/
def ESP_ERR_INVALID_ARG : Int := 0x102

/-- ESP_ERR_INVALID_STATE (0x103) from esp_err.h. -/
def ESP_ERR_INVALID_STATE : Int := 0x103

/-- ESP_ERR_NOT_SUPPORTED (0x106) from esp_err.h. -/
def ESP_ERR_NOT_SUPPORTED : Int := 0x106

/-- GPIO_NUM_NC, the not-connected pin sentinel (-1). -/
def GPIO_NUM_NC : Int := -1

/-- ADC_UNIT_1 from the adc_unit_t enum. -/
def ADC_UNIT_1 : Int := 0

/-- ADC_UNIT_2 from the adc_unit_t enum. -/
def ADC_UNIT_2 : Int := 1

/-- grove_aqs_quality_t: the five air-quality bands (header lines 32-38). -/
inductive grove_aqs_quality_t where
  | FRESH
  | GOOD
  | MODERATE
  | POOR
  | VERY_POOR
  deriving DecidableEq, Repr

/-- grove_aqs_config_t (header lines 43-57). -/
structure grove_aqs_config_t where
  adc_unit_num : Int
  adc_channel : Int
  adc_atten : Int
  vref : Int
  fresh_threshold : Int
  good_threshold : Int
  moderate_threshold : Int
  poor_threshold : Int
  use_gpio_power : Bool
  power_gpio : Int
  deriving DecidableEq, Repr

/-- grove_aqs_data_t (header lines 62-66). -/
structure grove_aqs_data_t where
  raw_value : Int
  voltage_mv : Int
  quality : grove_aqs_quality_t
  deriving DecidableEq, Repr

/-- grove_aqs_dev_t, the global `sensor` struct (grove_analog_aqs.c lines
21-28).  ADC and calibration handles are modelled as opaque numeric ids. -/
structure grove_aqs_dev_t where
  config : grove_aqs_config_t
  initialized : Bool
  adc_handle : Nat
  adc_cali_handle : Nat
  do_calibration : Bool
  adc_unit : Int
  deriving DecidableEq, Repr

/-- Outcomes of the platform-abstraction (HAL) collaborator calls during one
driver call: return codes, the handle produced by a successful
adc_oneshot_new_unit / adc_cali_create_scheme_curve_fitting, the raw sample
delivered by adc_oneshot_read, and the calibrated conversion function. -/
structure HalEnv where
  gpio_config_ret : Int
  gpio_set_level : Int → Int → Int
  adc_oneshot_new_unit_ret : Int
  adc_oneshot_new_unit_handle : Nat
  adc_oneshot_config_channel_ret : Int
  adc_cali_create_ret : Int
  adc_cali_new_handle : Nat
  adc_cali_delete_ret : Int
  adc_oneshot_del_unit_ret : Int
  adc_oneshot_read_ret : Int
  adc_oneshot_read_val : Int
  adc_cali_raw_to_voltage : Int → Int × Int

/-- Resource-relevant collaborator calls recorded by the driver routines.
`adcNewUnit`/`adcDelUnit` are recorded only when the create/delete succeeded,
so they track the lifecycle of live ADC-unit handles; the GPIO and
calibration events record the call having been made. -/
inductive HalEvent where
  | gpioConfig (pin : Int)
  | gpioSetLevel (pin : Int) (level : Int)
  | adcNewUnit (h : Nat)
  | adcDelUnit (h : Nat)
  | adcCaliCreate (h : Nat)
  | adcCaliDelete (h : Nat)
  deriving DecidableEq, Repr

/-- Number of successfully created ADC-unit handles recorded in a trace. -/
def countAdcCreates : List HalEvent → Nat
  | [] => 0
  | HalEvent.adcNewUnit _ :: rest => countAdcCreates rest + 1
  | _ :: rest => countAdcCreates rest

/-- Number of successfully deleted ADC-unit handles recorded in a trace. -/
def countAdcDeletes : List HalEvent → Nat
  | [] => 0
  | HalEvent.adcDelUnit _ :: rest => countAdcDeletes rest + 1
  | _ :: rest => countAdcDeletes rest

/-- grove_aqs_power_on (grove_analog_aqs.c lines 199-213): rejected with
ESP_ERR_NOT_SUPPORTED unless GPIO power control is enabled and a pin is
connected, otherwise drives the pin high and propagates the gpio_set_level
result. -/
def grove_aqs_power_on (s : grove_aqs_dev_t) (env : HalEnv) : Int × List HalEvent :=
  if s.config.use_gpio_power = false ∨ s.config.power_gpio = GPIO_NUM_NC then
    (ESP_ERR_NOT_SUPPORTED, [])
  else
    (env.gpio_set_level s.config.power_gpio 1,
     [HalEvent.gpioSetLevel s.config.power_gpio 1])

/-- grove_aqs_power_off (grove_analog_aqs.c lines 215-229): rejected with
ESP_ERR_NOT_SUPPORTED unless GPIO power control is enabled and a pin is
connected, otherwise drives the pin low and propagates the gpio_set_level
result. -/
def grove_aqs_power_off (s : grove_aqs_dev_t) (env : HalEnv) : Int × List HalEvent :=
  if s.config.use_gpio_power = false ∨ s.config.power_gpio = GPIO_NUM_NC then
    (ESP_ERR_NOT_SUPPORTED, [])
  else
    (env.gpio_set_level s.config.power_gpio 0,
     [HalEvent.gpioSetLevel s.config.power_gpio 0])

/-- grove_aqs_deinit (grove_analog_aqs.c lines 118-148).  The power-off return
value is ignored (line 126); the calibration-delete return value is only
logged (lines 131-134) while do_calibration is cleared; a failing
adc_oneshot_del_unit aborts with its error, leaving `initialized` true. -/
def grove_aqs_deinit (s : grove_aqs_dev_t) (env : HalEnv) :
    Int × grove_aqs_dev_t × List HalEvent :=
  if s.initialized = false then
    (ESP_ERR_INVALID_STATE, s, [])
  else
    let ev0 : List HalEvent :=
      if s.config.use_gpio_power = true ∧ s.config.power_gpio ≠ GPIO_NUM_NC then
        (grove_aqs_power_off s env).2
      else []
    let step : grove_aqs_dev_t × List HalEvent :=
      if s.do_calibration = true then
        ({ s with do_calibration := false },
         ev0 ++ [HalEvent.adcCaliDelete s.adc_cali_handle])
      else (s, ev0)
    if env.adc_oneshot_del_unit_ret ≠ ESP_OK then
      (env.adc_oneshot_del_unit_ret, step.1, step.2)
    else
      (ESP_OK, { step.1 with initialized := false },
       step.2 ++ [HalEvent.adcDelUnit step.1.adc_handle])

/-- grove_aqs_init (grove_analog_aqs.c lines 32-116).  A NULL config is
rejected up front; an already-initialized device is deinitialized first with
the return value ignored (lines 38-41); the configuration is then stored and
the ADC unit derived (lines 44-47); the optional power pin is configured and
driven high with failures propagated (lines 54-74); the ADC unit is created
and its channel configured with failures propagated, deleting the fresh unit
on channel-configuration failure (lines 77-96); calibration creation is
best-effort (lines 99-111); on success the device is marked initialized. -/
def grove_aqs_init (s : grove_aqs_dev_t) (config : Option grove_aqs_config_t)
    (env : HalEnv) : Int × grove_aqs_dev_t × List HalEvent :=
  match config with
  | none => (ESP_ERR_INVALID_ARG, s, [])
  | some cfg =>
    let pre : grove_aqs_dev_t × List HalEvent :=
      if s.initialized = true then
        let d := grove_aqs_deinit s env
        (d.2.1, d.2.2)
      else (s, [])
    let s1 : grove_aqs_dev_t :=
      { pre.1 with
        config := cfg,
        adc_unit := if cfg.adc_unit_num = 0 then ADC_UNIT_1 else ADC_UNIT_2 }
    let gpioStep : Option Int × List HalEvent :=
      if cfg.use_gpio_power = true ∧ cfg.power_gpio ≠ GPIO_NUM_NC then
        let ev1 := pre.2 ++ [HalEvent.gpioConfig cfg.power_gpio]
        if env.gpio_config_ret ≠ ESP_OK then
          (some env.gpio_config_ret, ev1)
        else
          let pr := grove_aqs_power_on s1 env
          if pr.1 ≠ ESP_OK then (some pr.1, ev1 ++ pr.2)
          else (none, ev1 ++ pr.2)
      else (none, pre.2)
    match gpioStep.1 with
    | some err => (err, s1, gpioStep.2)
    | none =>
      if env.adc_oneshot_new_unit_ret ≠ ESP_OK then
        (env.adc_oneshot_new_unit_ret, s1, gpioStep.2)
      else
        let s2 := { s1 with adc_handle := env.adc_oneshot_new_unit_handle }
        let ev2 := gpioStep.2 ++ [HalEvent.adcNewUnit env.adc_oneshot_new_unit_handle]
        if env.adc_oneshot_config_channel_ret ≠ ESP_OK then
          (env.adc_oneshot_config_channel_ret, s2,
           if env.adc_oneshot_del_unit_ret = ESP_OK then
             ev2 ++ [HalEvent.adcDelUnit s2.adc_handle]
           else ev2)
        else
          if env.adc_cali_create_ret = ESP_OK then
            (ESP_OK,
             { s2 with
               adc_cali_handle := env.adc_cali_new_handle,
               do_calibration := true,
               initialized := true },
             ev2 ++ [HalEvent.adcCaliCreate env.adc_cali_new_handle])
          else
            (ESP_OK, { s2 with do_calibration := false, initialized := true }, ev2)

/-- The threshold classification chain of grove_aqs_read_data
(grove_analog_aqs.c lines 181-191), extracted as a function of the converted
voltage. -/
def classify_voltage (cfg : grove_aqs_config_t) (v : Int) : grove_aqs_quality_t :=
  if v ≤ cfg.fresh_threshold then grove_aqs_quality_t.FRESH
  else if v ≤ cfg.good_threshold then grove_aqs_quality_t.GOOD
  else if v ≤ cfg.moderate_threshold then grove_aqs_quality_t.MODERATE
  else if v ≤ cfg.poor_threshold then grove_aqs_quality_t.POOR
  else grove_aqs_quality_t.VERY_POOR

/-- grove_aqs_read_data (grove_analog_aqs.c lines 150-197).  The `data`
argument models the pointer (`none` is NULL) and the returned option models
the pointed-to struct after the call; fields are written incrementally as in
the C, so a calibration-conversion failure leaves raw_value written but
voltage and quality untouched. -/
def grove_aqs_read_data (s : grove_aqs_dev_t) (env : HalEnv)
    (data : Option grove_aqs_data_t) : Int × Option grove_aqs_data_t :=
  if s.initialized = false then
    (ESP_ERR_INVALID_STATE, data)
  else
    match data with
    | none => (ESP_ERR_INVALID_ARG, none)
    | some d =>
      if env.adc_oneshot_read_ret ≠ ESP_OK then
        (env.adc_oneshot_read_ret, some d)
      else
        let d1 := { d with raw_value := env.adc_oneshot_read_val }
        if s.do_calibration = true then
          let cr := env.adc_cali_raw_to_voltage d1.raw_value
          if cr.1 ≠ ESP_OK then (cr.1, some d1)
          else
            let d2 := { d1 with voltage_mv := cr.2 }
            (ESP_OK, some { d2 with quality := classify_voltage s.config d2.voltage_mv })
        else
          let d2 := { d1 with voltage_mv := Int.tdiv (d1.raw_value * s.config.vref) 4095 }
          (ESP_OK, some { d2 with quality := classify_voltage s.config d2.voltage_mv })

/-- grove_aqs_quality_to_string (grove_analog_aqs.c lines 231-246); the C
`default: return "Unknown"` arm is unreachable over the five-variant enum. -/
def grove_aqs_quality_to_string (q : grove_aqs_quality_t) : String :=
  match q with
  | grove_aqs_quality_t.FRESH => "Fresh"
  | grove_aqs_quality_t.GOOD => "Good"
  | grove_aqs_quality_t.MODERATE => "Moderate"
  | grove_aqs_quality_t.POOR => "Poor"
  | grove_aqs_quality_t.VERY_POOR => "Very Poor"

/-! Concrete example values used by the witness theorems and the scenario
claims. -/

/-- The spec's scenario configuration: thresholds 700/1000/1500/2000, 3300 mV
reference, no GPIO power control. -/
def cfgEx : grove_aqs_config_t :=
  { adc_unit_num := 0, adc_channel := 2, adc_atten := 3, vref := 3300,
    fresh_threshold := 700, good_threshold := 1000, moderate_threshold := 1500,
    poor_threshold := 2000, use_gpio_power := false, power_gpio := GPIO_NUM_NC }

/-- The scenario configuration with GPIO power control on pin 5. -/
def cfgPower : grove_aqs_config_t :=
  { cfgEx with use_gpio_power := true, power_gpio := 5 }

/-- A zero-filled sample record, the state of the caller's output struct
before a read. -/
def dZero : grove_aqs_data_t :=
  { raw_value := 0, voltage_mv := 0, quality := grove_aqs_quality_t.FRESH }

/-- The zero-initialized global device state (`static grove_aqs_dev_t sensor
= {0}`), with the scenario configuration stored but not initialized. -/
def devZero : grove_aqs_dev_t :=
  { config := cfgEx, initialized := false, adc_handle := 0,
    adc_cali_handle := 0, do_calibration := false, adc_unit := 0 }

/-- An initialized device running the spec scenario: scenario configuration,
no calibration available. -/
def devC3 : grove_aqs_dev_t :=
  { config := cfgEx, initialized := true, adc_handle := 1,
    adc_cali_handle := 0, do_calibration := false, adc_unit := 0 }

/-- An initialized device with GPIO power control enabled on pin 5. -/
def devPower : grove_aqs_dev_t :=
  { devC3 with config := cfgPower }

/-- A HAL environment where every collaborator call succeeds except that
calibration creation returns `caliCreate` and the raw sample is `raw`. -/
def envEx (caliCreate : Int) (raw : Int) : HalEnv :=
  { gpio_config_ret := ESP_OK,
    gpio_set_level := fun _ _ => ESP_OK,
    adc_oneshot_new_unit_ret := ESP_OK,
    adc_oneshot_new_unit_handle := 1,
    adc_oneshot_config_channel_ret := ESP_OK,
    adc_cali_create_ret := caliCreate,
    adc_cali_new_handle := 2,
    adc_cali_delete_ret := ESP_OK,
    adc_oneshot_del_unit_ret := ESP_OK,
    adc_oneshot_read_ret := ESP_OK,
    adc_oneshot_read_val := raw,
    adc_cali_raw_to_voltage := fun r => (ESP_OK, r) }

/-- A HAL environment where deleting the ADC unit fails with ESP_FAIL. -/
def envDelFail : HalEnv :=
  { envEx ESP_FAIL 0 with adc_oneshot_del_unit_ret := ESP_FAIL }

/-! Helper lemmas shared by several claim proofs. -/

/-- Evaluation of grove_aqs_read_data on an initialized device without
calibration whose raw read succeeds (the linear-fallback path, lines
175-196). -/
lemma read_data_fallback (s : grove_aqs_dev_t) (env : HalEnv) (d : grove_aqs_data_t)
    (hi : s.initialized = true) (hc : s.do_calibration = false)
    (hr : env.adc_oneshot_read_ret = ESP_OK) :
    grove_aqs_read_data s env (some d) =
      (ESP_OK, some
        { raw_value := env.adc_oneshot_read_val,
          voltage_mv := Int.tdiv (env.adc_oneshot_read_val * s.config.vref) 4095,
          quality := classify_voltage s.config
            (Int.tdiv (env.adc_oneshot_read_val * s.config.vref) 4095) }) := by
  simp [grove_aqs_read_data, hi, hc, hr]

/-- Successful-create counting distributes over trace concatenation. -/
lemma countAdcCreates_append (a b : List HalEvent) :
    countAdcCreates (a ++ b) = countAdcCreates a + countAdcCreates b := by
  induction a with
  | nil => simp [countAdcCreates]
  | cons e rest ih => cases e <;> simp [countAdcCreates, ih] <;> omega

/-- Successful-delete counting distributes over trace concatenation. -/
lemma countAdcDeletes_append (a b : List HalEvent) :
    countAdcDeletes (a ++ b) = countAdcDeletes a + countAdcDeletes b := by
  induction a with
  | nil => simp [countAdcDeletes]
  | cons e rest ih => cases e <;> simp [countAdcDeletes, ih] <;> omega

/-- C10: grove_aqs_init with a NULL configuration returns
ESP_ERR_INVALID_ARG and leaves the device state completely unchanged — no
implicit teardown, no collaborator call, even on an already-initialized
device. -/
theorem C10_null_config_rejected_state_unchanged :
    ∀ (s : grove_aqs_dev_t) (env : HalEnv),
      grove_aqs_init s none env = (ESP_ERR_INVALID_ARG, s, []) :=
  fun _ _ => rfl

/-- C3 counterexample: in the spec scenario (thresholds 700/1000/1500/2000,
vref 3300 mV, no calibration), a raw reading of 900 does not yield 724
millivolts — the claim's stated value is wrong at this input. -/
theorem C3_raw900_not_724_counterexample :
    (grove_aqs_read_data devC3 (envEx ESP_FAIL 900) (some dZero)).2.map
        grove_aqs_data_t.voltage_mv ≠ some 724 := by
  decide

/-- C3 (amended): in the spec scenario a raw reading of 868 yields 699 mV
(868*3300/4095 = 699) and quality Fresh, and a raw reading of 900 yields
725 mV (900*3300/4095 = 725, not 724) and quality Good. -/
theorem C3_scenario_amended :
    grove_aqs_read_data devC3 (envEx ESP_FAIL 868) (some dZero) =
      (ESP_OK, some { raw_value := 868, voltage_mv := 699,
                      quality := grove_aqs_quality_t.FRESH }) ∧
    grove_aqs_read_data devC3 (envEx ESP_FAIL 900) (some dZero) =
      (ESP_OK, some { raw_value := 900, voltage_mv := 725,
                      quality := grove_aqs_quality_t.GOOD }) := by
  decide

/-- C4: on an uninitialized device grove_aqs_read_data fails with
ESP_ERR_INVALID_STATE for every environment and every output destination,
and the output is left untouched. -/
theorem C4_uninitialized_read_invalid_state :
    ∀ (s : grove_aqs_dev_t) (env : HalEnv) (data : Option grove_aqs_data_t),
      s.initialized = false →
      grove_aqs_read_data s env data = (ESP_ERR_INVALID_STATE, data) := by
  intro s env data hi
  simp [grove_aqs_read_data, hi]

/-- Witness for C4 at a concrete uninitialized device. -/
theorem C4_uninitialized_read_invalid_state_witness :
    grove_aqs_read_data devZero (envEx ESP_FAIL 0) (some dZero) =
      (ESP_ERR_INVALID_STATE, some dZero) :=
  C4_uninitialized_read_invalid_state devZero (envEx ESP_FAIL 0) (some dZero) rfl

/-- C9: in grove_aqs_read_data the initialized check precedes the NULL-output
check; with a NULL output an uninitialized device yields
ESP_ERR_INVALID_STATE, an initialized one ESP_ERR_INVALID_ARG, and an
ESP_ERR_INVALID_ARG result is only ever produced on an initialized device. -/
theorem C9_initialized_check_precedes_null_check :
    ∀ (s : grove_aqs_dev_t) (env : HalEnv),
      (s.initialized = false →
        grove_aqs_read_data s env none = (ESP_ERR_INVALID_STATE, none)) ∧
      (s.initialized = true →
        grove_aqs_read_data s env none = (ESP_ERR_INVALID_ARG, none)) ∧
      (∀ data, (grove_aqs_read_data s env data).1 = ESP_ERR_INVALID_ARG →
        s.initialized = true) := by
  intro s env
  refine ⟨fun hi => by simp [grove_aqs_read_data, hi],
          fun hi => by simp [grove_aqs_read_data, hi],
          fun data h => ?_⟩
  cases hb : s.initialized with
  | true => rfl
  | false =>
    rw [grove_aqs_read_data.eq_def, if_pos hb] at h
    simp [ESP_ERR_INVALID_STATE, ESP_ERR_INVALID_ARG] at h

/-- Witness for C9 at concrete devices, one uninitialized and one
initialized. -/
theorem C9_initialized_check_precedes_null_check_witness :
    grove_aqs_read_data devZero (envEx ESP_FAIL 0) none = (ESP_ERR_INVALID_STATE, none) ∧
    grove_aqs_read_data devC3 (envEx ESP_FAIL 0) none = (ESP_ERR_INVALID_ARG, none) :=
  ⟨(C9_initialized_check_precedes_null_check devZero (envEx ESP_FAIL 0)).1 rfl,
   (C9_initialized_check_precedes_null_check devC3 (envEx ESP_FAIL 0)).2.1 rfl⟩

/-- C5: grove_aqs_power_on and grove_aqs_power_off fail with
ESP_ERR_NOT_SUPPORTED whenever GPIO power control is disabled or the pin is
the not-connected sentinel, making no GPIO call; otherwise they drive the
pin high (on) respectively low (off) and return exactly the underlying
gpio_set_level result. -/
theorem C5_power_control_gating :
    ∀ (s : grove_aqs_dev_t) (env : HalEnv),
      ((s.config.use_gpio_power = false ∨ s.config.power_gpio = GPIO_NUM_NC) →
        grove_aqs_power_on s env = (ESP_ERR_NOT_SUPPORTED, []) ∧
        grove_aqs_power_off s env = (ESP_ERR_NOT_SUPPORTED, [])) ∧
      (s.config.use_gpio_power = true → s.config.power_gpio ≠ GPIO_NUM_NC →
        grove_aqs_power_on s env =
          (env.gpio_set_level s.config.power_gpio 1,
           [HalEvent.gpioSetLevel s.config.power_gpio 1]) ∧
        grove_aqs_power_off s env =
          (env.gpio_set_level s.config.power_gpio 0,
           [HalEvent.gpioSetLevel s.config.power_gpio 0])) := by
  intro s env
  constructor
  · intro h
    rcases h with h | h <;>
      exact ⟨by simp [grove_aqs_power_on, h], by simp [grove_aqs_power_off, h]⟩
  · intro hu hp
    exact ⟨by simp [grove_aqs_power_on, hu, hp], by simp [grove_aqs_power_off, hu, hp]⟩

/-- Witness for C5: power control rejected on a device without GPIO power,
and driving pin 5 high on a device with GPIO power enabled. -/
theorem C5_power_control_gating_witness :
    grove_aqs_power_on devC3 (envEx ESP_FAIL 0) = (ESP_ERR_NOT_SUPPORTED, []) ∧
    grove_aqs_power_on devPower (envEx ESP_FAIL 0) =
      (ESP_OK, [HalEvent.gpioSetLevel 5 1]) ∧
    grove_aqs_power_off devPower (envEx ESP_FAIL 0) =
      (ESP_OK, [HalEvent.gpioSetLevel 5 0]) := by
  refine ⟨((C5_power_control_gating devC3 (envEx ESP_FAIL 0)).1 (Or.inl rfl)).1, ?_, ?_⟩
  · exact ((C5_power_control_gating devPower (envEx ESP_FAIL 0)).2 rfl (by decide)).1
  · exact ((C5_power_control_gating devPower (envEx ESP_FAIL 0)).2 rfl (by decide)).2

/-- The sample produced by the spec scenario at raw reading 868. -/
def dEx868 : grove_aqs_data_t :=
  { raw_value := 868, voltage_mv := 699, quality := grove_aqs_quality_t.FRESH }

/-- C1: every quality band grove_aqs_read_data reports is the strict
priority chain of inclusive upper bounds over the converted millivolts: the
first matching bound wins (Fresh, then Good, then Moderate, then Poor, else
VeryPoor); classification is the total function classify_voltage; the
fresh_threshold itself classifies Fresh and, for strictly increasing
thresholds, fresh_threshold + 1 classifies Good. -/
theorem C1_classification_priority_chain :
    (∀ (s : grove_aqs_dev_t) (env : HalEnv) (d d' : grove_aqs_data_t),
        grove_aqs_read_data s env (some d) = (ESP_OK, some d') →
        d'.quality = classify_voltage s.config d'.voltage_mv) ∧
    (∀ (cfg : grove_aqs_config_t) (v : Int),
        (v ≤ cfg.fresh_threshold →
            classify_voltage cfg v = grove_aqs_quality_t.FRESH) ∧
        (¬ v ≤ cfg.fresh_threshold → v ≤ cfg.good_threshold →
            classify_voltage cfg v = grove_aqs_quality_t.GOOD) ∧
        (¬ v ≤ cfg.fresh_threshold → ¬ v ≤ cfg.good_threshold →
            v ≤ cfg.moderate_threshold →
            classify_voltage cfg v = grove_aqs_quality_t.MODERATE) ∧
        (¬ v ≤ cfg.fresh_threshold → ¬ v ≤ cfg.good_threshold →
            ¬ v ≤ cfg.moderate_threshold → v ≤ cfg.poor_threshold →
            classify_voltage cfg v = grove_aqs_quality_t.POOR) ∧
        (¬ v ≤ cfg.fresh_threshold → ¬ v ≤ cfg.good_threshold →
            ¬ v ≤ cfg.moderate_threshold → ¬ v ≤ cfg.poor_threshold →
            classify_voltage cfg v = grove_aqs_quality_t.VERY_POOR)) ∧
    (∀ cfg : grove_aqs_config_t,
        classify_voltage cfg cfg.fresh_threshold = grove_aqs_quality_t.FRESH) ∧
    (∀ cfg : grove_aqs_config_t, cfg.fresh_threshold < cfg.good_threshold →
        classify_voltage cfg (cfg.fresh_threshold + 1) = grove_aqs_quality_t.GOOD) := by
  refine ⟨?_, ?_, ?_, ?_⟩
  · intro s env d d' h
    simp only [grove_aqs_read_data] at h
    split_ifs at h with h1 h2 h3 h4 <;>
      simp only [Prod.mk.injEq, Option.some.injEq] at h
    · exact absurd h.1 (by decide)
    · exact absurd h.1 h2
    · exact absurd h.1 h4
    · rw [← h.2]
    · rw [← h.2]
  · intro cfg v
    unfold classify_voltage
    exact ⟨fun h1 => by rw [if_pos h1],
           fun h1 h2 => by rw [if_neg h1, if_pos h2],
           fun h1 h2 h3 => by rw [if_neg h1, if_neg h2, if_pos h3],
           fun h1 h2 h3 h4 => by rw [if_neg h1, if_neg h2, if_neg h3, if_pos h4],
           fun h1 h2 h3 h4 => by rw [if_neg h1, if_neg h2, if_neg h3, if_neg h4]⟩
  · intro cfg
    simp [classify_voltage]
  · intro cfg h
    have h1 : ¬ cfg.fresh_threshold + 1 ≤ cfg.fresh_threshold := by omega
    have h2 : cfg.fresh_threshold + 1 ≤ cfg.good_threshold := by omega
    simp [classify_voltage, h1, h2]

/-- Witness for C1: the quality reported in the raw-868 scenario matches the
chain, 1200 mV lands in Moderate through the priority chain, and the two
boundary facts hold for the scenario thresholds. -/
theorem C1_classification_priority_chain_witness :
    dEx868.quality = classify_voltage devC3.config dEx868.voltage_mv ∧
    classify_voltage cfgEx 1200 = grove_aqs_quality_t.MODERATE ∧
    classify_voltage cfgEx cfgEx.fresh_threshold = grove_aqs_quality_t.FRESH ∧
    classify_voltage cfgEx (cfgEx.fresh_threshold + 1) = grove_aqs_quality_t.GOOD := by
  have h := C1_classification_priority_chain
  refine ⟨h.1 devC3 (envEx ESP_FAIL 868) dZero dEx868 (by decide), ?_,
          h.2.2.1 cfgEx, h.2.2.2 cfgEx (by decide)⟩
  exact (h.2.1 cfgEx 1200).2.2.1 (by decide) (by decide) (by decide)

/-- C2: on an initialized device without calibration, whenever the raw read
succeeds grove_aqs_read_data converts with millivolts = raw * vref / 4095
using C truncating integer division against the fixed 4095 full-scale
constant. -/
theorem C2_fallback_linear_conversion :
    ∀ (s : grove_aqs_dev_t) (env : HalEnv) (d : grove_aqs_data_t),
      s.initialized = true → s.do_calibration = false →
      env.adc_oneshot_read_ret = ESP_OK →
      grove_aqs_read_data s env (some d) =
        (ESP_OK, some
          { raw_value := env.adc_oneshot_read_val,
            voltage_mv := Int.tdiv (env.adc_oneshot_read_val * s.config.vref) 4095,
            quality := classify_voltage s.config
              (Int.tdiv (env.adc_oneshot_read_val * s.config.vref) 4095) }) :=
  fun s env d hi hc hr => read_data_fallback s env d hi hc hr

/-- Witness for C2 at raw reading 1234 on the scenario device. -/
theorem C2_fallback_linear_conversion_witness :
    grove_aqs_read_data devC3 (envEx ESP_FAIL 1234) (some dZero) =
      (ESP_OK, some
        { raw_value := 1234,
          voltage_mv := Int.tdiv (1234 * devC3.config.vref) 4095,
          quality := classify_voltage devC3.config
            (Int.tdiv (1234 * devC3.config.vref) 4095) }) :=
  C2_fallback_linear_conversion devC3 (envEx ESP_FAIL 1234) dZero rfl rfl rfl

/-- C6: during grove_aqs_deinit on an initialized device, a failing
adc_oneshot_del_unit propagates its error and leaves the device marked
initialized (teardown retryable); if the delete succeeds teardown succeeds
and clears initialized; and the outcome never depends on the gpio_set_level
results (the ignored power-off path) or on the calibration-delete result. -/
theorem C6_deinit_error_propagation :
    ∀ (s : grove_aqs_dev_t) (env : HalEnv),
      s.initialized = true →
      (env.adc_oneshot_del_unit_ret ≠ ESP_OK →
        (grove_aqs_deinit s env).1 = env.adc_oneshot_del_unit_ret ∧
        (grove_aqs_deinit s env).2.1.initialized = true) ∧
      (env.adc_oneshot_del_unit_ret = ESP_OK →
        (grove_aqs_deinit s env).1 = ESP_OK ∧
        (grove_aqs_deinit s env).2.1.initialized = false) ∧
      (∀ (g : Int → Int → Int) (c : Int),
        grove_aqs_deinit s
            { env with gpio_set_level := g, adc_cali_delete_ret := c } =
          grove_aqs_deinit s env) := by
  intro s env hi
  refine ⟨fun hd => ?_, fun hd => ?_, fun g c => ?_⟩
  · dsimp only [grove_aqs_deinit]
    rw [if_neg (show ¬ s.initialized = false by simp [hi]), if_pos hd]
    refine ⟨rfl, ?_⟩
    by_cases hcal : s.do_calibration = true <;> simp [hcal, hi]
  · dsimp only [grove_aqs_deinit]
    rw [if_neg (show ¬ s.initialized = false by simp [hi]),
        if_neg (show ¬ env.adc_oneshot_del_unit_ret ≠ ESP_OK from fun h => h hd)]
    exact ⟨rfl, rfl⟩
  · dsimp only [grove_aqs_deinit, grove_aqs_power_off]
    split_ifs <;> rfl

/-- Witness for C6: a concrete deinit whose ADC-unit delete fails with
ESP_FAIL propagates ESP_FAIL, keeps initialized true, and is insensitive to
the power-off and calibration-delete results. -/
theorem C6_deinit_error_propagation_witness :
    ((grove_aqs_deinit devC3 envDelFail).1 = envDelFail.adc_oneshot_del_unit_ret ∧
      (grove_aqs_deinit devC3 envDelFail).2.1.initialized = true) ∧
    grove_aqs_deinit devC3
        { envDelFail with gpio_set_level := fun _ _ => ESP_FAIL,
                          adc_cali_delete_ret := ESP_FAIL } =
      grove_aqs_deinit devC3 envDelFail := by
  have h := C6_deinit_error_propagation devC3 envDelFail rfl
  exact ⟨h.1 (by decide), h.2.2 (fun _ _ => ESP_FAIL) ESP_FAIL⟩

/-- Evaluation of grove_aqs_init when the GPIO, ADC-unit and channel steps
succeed: it returns ESP_OK, marks the device initialized, stores the given
configuration, and sets do_calibration exactly when calibration creation
succeeded. -/
lemma init_ok_proj (s : grove_aqs_dev_t) (cfg : grove_aqs_config_t) (env : HalEnv)
    (hg : env.gpio_config_ret = ESP_OK)
    (hs : ∀ p l, env.gpio_set_level p l = ESP_OK)
    (hn : env.adc_oneshot_new_unit_ret = ESP_OK)
    (hc : env.adc_oneshot_config_channel_ret = ESP_OK) :
    (grove_aqs_init s (some cfg) env).1 = ESP_OK ∧
    (grove_aqs_init s (some cfg) env).2.1.initialized = true ∧
    (grove_aqs_init s (some cfg) env).2.1.config = cfg ∧
    (grove_aqs_init s (some cfg) env).2.1.do_calibration =
      decide (env.adc_cali_create_ret = ESP_OK) := by
  simp only [grove_aqs_init, grove_aqs_power_on]
  by_cases hu : cfg.use_gpio_power = true ∧ ¬ cfg.power_gpio = GPIO_NUM_NC <;>
    by_cases hcal : env.adc_cali_create_ret = ESP_OK <;>
      simp [hu, hcal, hg, hs, hn, hc]

/-- The trace of a successful grove_aqs_deinit contains no ADC-unit creation
and exactly one successful ADC-unit deletion. -/
lemma deinit_trace_counts (s : grove_aqs_dev_t) (env : HalEnv)
    (hi : s.initialized = true) (hd : env.adc_oneshot_del_unit_ret = ESP_OK) :
    countAdcCreates (grove_aqs_deinit s env).2.2 = 0 ∧
    countAdcDeletes (grove_aqs_deinit s env).2.2 = 1 := by
  dsimp only [grove_aqs_deinit, grove_aqs_power_off]
  rw [if_neg (show ¬ s.initialized = false by simp [hi]),
      if_neg (show ¬ env.adc_oneshot_del_unit_ret ≠ ESP_OK from fun h => h hd)]
  by_cases hcal : s.do_calibration = true <;>
    by_cases hgp : s.config.use_gpio_power = true ∧ ¬ s.config.power_gpio = GPIO_NUM_NC <;>
      by_cases hns : s.config.use_gpio_power = false ∨ s.config.power_gpio = GPIO_NUM_NC <;>
        simp [hcal, hgp, hns, countAdcCreates, countAdcDeletes, countAdcCreates_append,
          countAdcDeletes_append]

/-- The trace of a grove_aqs_init whose GPIO, ADC-unit, channel and (when the
device was already initialized) ADC-unit deletion collaborators succeed
contains exactly one ADC-unit creation, and one deletion when the call tore
down a previous initialization, zero otherwise. -/
lemma init_ok_counts (s : grove_aqs_dev_t) (cfg : grove_aqs_config_t) (env : HalEnv)
    (hg : env.gpio_config_ret = ESP_OK)
    (hs : ∀ p l, env.gpio_set_level p l = ESP_OK)
    (hn : env.adc_oneshot_new_unit_ret = ESP_OK)
    (hc : env.adc_oneshot_config_channel_ret = ESP_OK)
    (hd : env.adc_oneshot_del_unit_ret = ESP_OK) :
    countAdcCreates (grove_aqs_init s (some cfg) env).2.2 = 1 ∧
    countAdcDeletes (grove_aqs_init s (some cfg) env).2.2 =
      (if s.initialized = true then 1 else 0) := by
  by_cases hi : s.initialized = true
  · have hde := deinit_trace_counts s env hi hd
    simp only [grove_aqs_init, grove_aqs_power_on]
    rw [if_pos hi]
    by_cases hu : cfg.use_gpio_power = true ∧ ¬ cfg.power_gpio = GPIO_NUM_NC <;>
      by_cases hcal : env.adc_cali_create_ret = ESP_OK <;>
        simp [hu, hcal, hg, hs, hn, hc, hi, countAdcCreates_append, countAdcDeletes_append,
          hde.1, hde.2, countAdcCreates, countAdcDeletes]
  · simp only [grove_aqs_init, grove_aqs_power_on]
    rw [if_neg hi]
    by_cases hu : cfg.use_gpio_power = true ∧ ¬ cfg.power_gpio = GPIO_NUM_NC <;>
      by_cases hcal : env.adc_cali_create_ret = ESP_OK <;>
        simp [hu, hcal, hg, hs, hn, hc, hi, countAdcCreates_append, countAdcDeletes_append,
          countAdcCreates, countAdcDeletes]

/-- All the collaborator success assumptions a fully successful
initialization or teardown needs (calibration creation is deliberately left
unconstrained: it is best-effort). -/
def HalAllOk (env : HalEnv) : Prop :=
  env.gpio_config_ret = ESP_OK ∧
  (∀ p l, env.gpio_set_level p l = ESP_OK) ∧
  env.adc_oneshot_new_unit_ret = ESP_OK ∧
  env.adc_oneshot_config_channel_ret = ESP_OK ∧
  env.adc_oneshot_del_unit_ret = ESP_OK

/-- C7: when the power-pin and analog-channel steps succeed but calibration
creation fails, grove_aqs_init still returns ESP_OK, marks the device
initialized with do_calibration false, and subsequent successful reads use
the linear fallback conversion raw * vref / 4095. -/
theorem C7_calibration_failure_nonfatal :
    ∀ (s : grove_aqs_dev_t) (cfg : grove_aqs_config_t) (env : HalEnv),
      env.gpio_config_ret = ESP_OK →
      (∀ p l, env.gpio_set_level p l = ESP_OK) →
      env.adc_oneshot_new_unit_ret = ESP_OK →
      env.adc_oneshot_config_channel_ret = ESP_OK →
      env.adc_cali_create_ret ≠ ESP_OK →
      (grove_aqs_init s (some cfg) env).1 = ESP_OK ∧
      (grove_aqs_init s (some cfg) env).2.1.initialized = true ∧
      (grove_aqs_init s (some cfg) env).2.1.do_calibration = false ∧
      (∀ (env2 : HalEnv) (d : grove_aqs_data_t),
        env2.adc_oneshot_read_ret = ESP_OK →
        grove_aqs_read_data (grove_aqs_init s (some cfg) env).2.1 env2 (some d) =
          (ESP_OK, some
            { raw_value := env2.adc_oneshot_read_val,
              voltage_mv := Int.tdiv (env2.adc_oneshot_read_val * cfg.vref) 4095,
              quality := classify_voltage cfg
                (Int.tdiv (env2.adc_oneshot_read_val * cfg.vref) 4095) })) := by
  intro s cfg env hg hs hn hc hcal
  have p := init_ok_proj s cfg env hg hs hn hc
  have hdc : (grove_aqs_init s (some cfg) env).2.1.do_calibration = false := by
    rw [p.2.2.2]
    simp [hcal]
  refine ⟨p.1, p.2.1, hdc, fun env2 d hr => ?_⟩
  have hread := read_data_fallback (grove_aqs_init s (some cfg) env).2.1 env2 d p.2.1 hdc hr
  rw [p.2.2.1] at hread
  exact hread

/-- Witness for C7: a concrete initialization whose calibration creation
fails with ESP_FAIL still succeeds, runs without calibration, and a read of
raw 42 converts linearly. -/
theorem C7_calibration_failure_nonfatal_witness :
    (grove_aqs_init devZero (some cfgEx) (envEx ESP_FAIL 0)).1 = ESP_OK ∧
    (grove_aqs_init devZero (some cfgEx) (envEx ESP_FAIL 0)).2.1.initialized = true ∧
    (grove_aqs_init devZero (some cfgEx) (envEx ESP_FAIL 0)).2.1.do_calibration = false ∧
    grove_aqs_read_data (grove_aqs_init devZero (some cfgEx) (envEx ESP_FAIL 0)).2.1
        (envEx ESP_FAIL 42) (some dZero) =
      (ESP_OK, some
        { raw_value := 42,
          voltage_mv := Int.tdiv (42 * cfgEx.vref) 4095,
          quality := classify_voltage cfgEx (Int.tdiv (42 * cfgEx.vref) 4095) }) := by
  have h := C7_calibration_failure_nonfatal devZero cfgEx (envEx ESP_FAIL 0)
    rfl (fun _ _ => rfl) rfl rfl (by decide)
  exact ⟨h.1, h.2.1, h.2.2.1, h.2.2.2 (envEx ESP_FAIL 42) dZero rfl⟩

/-- C8: initializing an already-initialized device with all collaborator
calls succeeding tears the old instance down and succeeds; over the two
initializations the successful ADC-unit creations exceed the successful
deletions by exactly one, so exactly one live ADC-unit handle remains. -/
theorem C8_reinitialization_no_handle_leak :
    ∀ (s : grove_aqs_dev_t) (cfg1 cfg2 : grove_aqs_config_t) (env1 env2 : HalEnv),
      s.initialized = false →
      HalAllOk env1 → HalAllOk env2 →
      (grove_aqs_init s (some cfg1) env1).1 = ESP_OK ∧
      (grove_aqs_init (grove_aqs_init s (some cfg1) env1).2.1 (some cfg2) env2).1 =
        ESP_OK ∧
      countAdcCreates
          ((grove_aqs_init s (some cfg1) env1).2.2 ++
            (grove_aqs_init (grove_aqs_init s (some cfg1) env1).2.1
              (some cfg2) env2).2.2) =
        countAdcDeletes
            ((grove_aqs_init s (some cfg1) env1).2.2 ++
              (grove_aqs_init (grove_aqs_init s (some cfg1) env1).2.1
                (some cfg2) env2).2.2) + 1 := by
  intro s cfg1 cfg2 env1 env2 hs0 h1 h2
  obtain ⟨hg1, hset1, hn1, hc1, hd1⟩ := h1
  obtain ⟨hg2, hset2, hn2, hc2, hd2⟩ := h2
  have p1 := init_ok_proj s cfg1 env1 hg1 hset1 hn1 hc1
  have q1 := init_ok_counts s cfg1 env1 hg1 hset1 hn1 hc1 hd1
  have p2 := init_ok_proj (grove_aqs_init s (some cfg1) env1).2.1 cfg2 env2
    hg2 hset2 hn2 hc2
  have q2 := init_ok_counts (grove_aqs_init s (some cfg1) env1).2.1 cfg2 env2
    hg2 hset2 hn2 hc2 hd2
  refine ⟨p1.1, p2.1, ?_⟩
  rw [countAdcCreates_append, countAdcDeletes_append, q1.1, q2.1, q1.2, q2.2, p1.2.1]
  simp [hs0]

/-- Witness for C8: two concrete back-to-back initializations from the zero
state succeed and the combined trace balances creations against deletions
plus one. -/
theorem C8_reinitialization_no_handle_leak_witness :
    (grove_aqs_init devZero (some cfgEx) (envEx ESP_FAIL 0)).1 = ESP_OK ∧
    (grove_aqs_init (grove_aqs_init devZero (some cfgEx) (envEx ESP_FAIL 0)).2.1
        (some cfgPower) (envEx ESP_OK 0)).1 = ESP_OK ∧
    countAdcCreates
        ((grove_aqs_init devZero (some cfgEx) (envEx ESP_FAIL 0)).2.2 ++
          (grove_aqs_init (grove_aqs_init devZero (some cfgEx) (envEx ESP_FAIL 0)).2.1
            (some cfgPower) (envEx ESP_OK 0)).2.2) =
      countAdcDeletes
          ((grove_aqs_init devZero (some cfgEx) (envEx ESP_FAIL 0)).2.2 ++
            (grove_aqs_init (grove_aqs_init devZero (some cfgEx) (envEx ESP_FAIL 0)).2.1
              (some cfgPower) (envEx ESP_OK 0)).2.2) + 1 :=
  C8_reinitialization_no_handle_leak devZero cfgEx cfgPower
    (envEx ESP_FAIL 0) (envEx ESP_OK 0) rfl
    ⟨rfl, fun _ _ => rfl, rfl, rfl, rfl⟩
    ⟨rfl, fun _ _ => rfl, rfl, rfl, rfl⟩
